import Mathlib

/-!
Verification of the AI-manager in-process service fabric (event bus,
service supervisor, core dispatcher) against its specification.

The definitions below are a shallow embedding of the Rust sources:

* `src/crates/shared/src/messages.rs`  — message and event unions;
* `src/crates/shared/src/errors.rs`    — the `SystemError` taxonomy;
* `src/crates/shared/src/constants.rs` — service-id constants;
* `src/crates/core/src/event_bus.rs`   — `EventBus` and its operations;
* `src/crates/core/src/handlers/user_input.rs` — the user-input handler;
* `src/crates/core/src/main.rs`        — the core dispatch loop;
* `src/crates/core/src/service_manager.rs` — supervisor and restart policy.

Modelling conventions: `DateTime<Utc>` and `Uuid` become `Nat` atoms;
`serde_json::Value` becomes its serialized text; tokio `mpsc` inboxes become
in-state FIFO queues (`List ServiceMessage`) held by the registry; the
broadcast channel is represented by its live-receiver count, which is what
decides whether `broadcast::Sender::send` succeeds; `f64` durations of the
restart policy become exact rationals (`ℚ`); the `HashMap` registry becomes
an association list with replace-on-insert semantics.
-/

/-! ### Shared message and error types (`shared/src/messages.rs`, `errors.rs`) -/

abbrev ServiceId := String

/-- `serde_json::Value` modelled as its serialized text. -/
abbrev JsonValue := String

inductive ResponseType where
  | Info
  | Success
  | Warning
  | Error
  | Thinking
deriving DecidableEq, Repr

structure TokenUsage where
  prompt_tokens : Nat
  completion_tokens : Nat
  total_tokens : Nat
deriving DecidableEq, Repr

inductive CalendarAction where
  | ListEvents (start_date end_date : Nat)
  | CreateEvent (title : String) (description : Option String) (start_time end_time : Nat)
  | UpdateEvent (event_id : String) (title description : Option String)
      (start_time end_time : Option Nat)
  | DeleteEvent (event_id : String)
deriving DecidableEq, Repr

/-- `EmailData`; the Rust fields `from`/`to` are renamed `from_addr`/`to_addrs`
because `from` is a Lean keyword. -/
structure EmailData where
  id : String
  from_addr : String
  to_addrs : List String
  subject : String
  body : String
  timestamp : Nat
  is_read : Bool
deriving DecidableEq, Repr

inductive MessageRole where
  | User
  | Assistant
  | System
deriving DecidableEq, Repr

structure Message where
  id : Nat
  content : String
  timestamp : Nat
  role : MessageRole
  metadata : Option JsonValue
deriving DecidableEq, Repr

structure UserProfile where
  id : String
  name : Option String
  preferences : JsonValue
  created_at : Nat
  updated_at : Nat
deriving DecidableEq, Repr

inductive ServiceHealth where
  | Healthy
  | Degraded (reason : String)
  | Unhealthy (error : String)
deriving DecidableEq, Repr

inductive ServiceMessage where
  | UserInput (content : String) (timestamp : Nat) (user_id : String)
  | SystemResponse (content : String) (message_type : ResponseType) (timestamp : Nat)
  | LLMRequest (prompt : String) (context : List String) (provider : String) (request_id : Nat)
  | LLMResponse (content : String) (usage : TokenUsage) (request_id : Nat)
  | CalendarSync (action : CalendarAction)
  | EmailProcess (emails : List EmailData)
  | StoreConversation (user_id : String) (messages : List Message)
  | LoadUserProfile (user_id : String)
  | UserProfileResponse (profile : Option UserProfile)
  | ServiceHealthCheck (service_id : String)
  | ServiceHealthResponse (service_id : String) (status : ServiceHealth)
  | ShutdownService (service_id : String)
deriving DecidableEq, Repr

inductive SystemEvent where
  | ServiceStarted (service_id : String)
  | ServiceStopped (service_id : String)
  | ServiceRestarted (service_id : String)
  | ErrorOccurred (service_id : String) (error : String)
  | MessageReceived (from_service : String) (to_service : String)
deriving DecidableEq, Repr

/-- The `SystemError` enum; `Io` is rendered `IoErr` (payloads of the wrapped
library errors become their display text). -/
inductive SystemError where
  | ServiceCommunication (msg : String)
  | LLMApi (provider : String) (message : String)
  | Database (msg : String)
  | ExternalService (service : String) (message : String)
  | Configuration (msg : String)
  | Authentication (msg : String)
  | Network (msg : String)
  | Serialization (msg : String)
  | IoErr (msg : String)
  | JsonErr (msg : String)
  | Timeout
  | ServiceUnavailable (service : String)
  | RateLimitExceeded (service : String)
  | InvalidInput (msg : String)
  | Unknown (msg : String)
deriving DecidableEq, Repr

/-! ### Service-id constants (`shared/src/constants.rs`) -/

def CORE_SERVICE_ID : ServiceId := "core"
def LLM_SERVICE_ID : ServiceId := "llm"
def DATA_SERVICE_ID : ServiceId := "data"
def EXTERNAL_SERVICE_ID : ServiceId := "external"
def UI_SERVICE_ID : ServiceId := "ui"

/-! ### Registry operations

The Rust `HashMap<ServiceId, _>` is modelled as an association list whose
`insertEntry` replaces an existing binding, matching `HashMap::insert`. -/

def lookupEntry {α : Type} : List (ServiceId × α) → ServiceId → Option α
  | [], _ => none
  | (k2, v) :: rest, k => if k2 = k then some v else lookupEntry rest k

def insertEntry {α : Type} : List (ServiceId × α) → ServiceId → α → List (ServiceId × α)
  | [], k, v => [(k, v)]
  | (k2, v2) :: rest, k, v =>
      if k2 = k then (k, v) :: rest else (k2, v2) :: insertEntry rest k v

def removeEntry {α : Type} : List (ServiceId × α) → ServiceId → List (ServiceId × α)
  | [], _ => []
  | (k2, v2) :: rest, k => if k2 = k then rest else (k2, v2) :: removeEntry rest k

def updateEntry {α : Type} : List (ServiceId × α) → ServiceId → (α → α) → List (ServiceId × α)
  | [], _, _ => []
  | (k2, v) :: rest, k, f =>
      if k2 = k then (k2, f v) :: rest else (k2, v) :: updateEntry rest k f

/-! ### Event bus (`core/src/event_bus.rs`) -/

structure EventBusStats where
  messages_routed : Nat
  events_broadcast : Nat
  routing_errors : Nat
deriving DecidableEq, Repr

/-- The bus state.  `service_senders` maps a registered id to its inbox
queue (the `mpsc` channel contents); `subscriber_count` is the number of
live broadcast receivers, which decides whether `broadcast::Sender::send`
succeeds. -/
structure EventBus where
  service_senders : List (ServiceId × List ServiceMessage)
  subscriber_count : Nat
  stats : EventBusStats
deriving DecidableEq, Repr

/-- `EventBus::new`: empty registry, zero stats; the initial broadcast
receiver is dropped on creation (`let (event_tx, _) = broadcast::channel`),
so no subscriber is attached. -/
def EventBus.new : EventBus :=
  { service_senders := [], subscriber_count := 0,
    stats := { messages_routed := 0, events_broadcast := 0, routing_errors := 0 } }

/-- `EventBus::broadcast_event`: the send fails exactly when no subscriber
is attached; the failure is logged and dropped (no error is surfaced) and
the counter is bumped only on success. -/
def broadcast_event (bus : EventBus) (_event : SystemEvent) : EventBus :=
  if bus.subscriber_count = 0 then
    bus
  else
    { bus with stats := { bus.stats with events_broadcast := bus.stats.events_broadcast + 1 } }

/-- `EventBus::subscribe_to_events` (the returned receiver is represented
only by the incremented live-receiver count). -/
def subscribe_to_events (bus : EventBus) : EventBus :=
  { bus with subscriber_count := bus.subscriber_count + 1 }

/-- `EventBus::register_service`: creates a fresh inbox, stores its producer
(replacing any existing binding for the same id), broadcasts
`ServiceStarted`, and returns `Ok`.  The source has no already-registered
check and `SystemError` has no `AlreadyRegistered` variant. -/
def register_service (bus : EventBus) (service_id : ServiceId) :
    Except SystemError Unit × EventBus :=
  let bus1 := { bus with service_senders := insertEntry bus.service_senders service_id [] }
  (Except.ok (), broadcast_event bus1 (SystemEvent.ServiceStarted service_id))

/-- `EventBus::unregister_service`. -/
def unregister_service (bus : EventBus) (service_id : ServiceId) :
    Except SystemError Unit × EventBus :=
  let bus1 := { bus with service_senders := removeEntry bus.service_senders service_id }
  (Except.ok (), broadcast_event bus1 (SystemEvent.ServiceStopped service_id))

/-- `EventBus::determine_target_service`: the content-based routing table. -/
def determine_target_service (message : ServiceMessage) : Except SystemError ServiceId :=
  match message with
  | ServiceMessage.LLMRequest _ _ _ _ => Except.ok LLM_SERVICE_ID
  | ServiceMessage.StoreConversation _ _ => Except.ok DATA_SERVICE_ID
  | ServiceMessage.LoadUserProfile _ => Except.ok DATA_SERVICE_ID
  | ServiceMessage.CalendarSync _ => Except.ok EXTERNAL_SERVICE_ID
  | ServiceMessage.EmailProcess _ => Except.ok EXTERNAL_SERVICE_ID
  | ServiceMessage.SystemResponse _ _ _ => Except.ok UI_SERVICE_ID
  | ServiceMessage.UserProfileResponse _ => Except.ok UI_SERVICE_ID
  | ServiceMessage.UserInput _ _ _ => Except.ok CORE_SERVICE_ID
  | ServiceMessage.LLMResponse _ _ _ => Except.ok CORE_SERVICE_ID
  | ServiceMessage.ServiceHealthResponse _ _ => Except.ok CORE_SERVICE_ID
  | ServiceMessage.ServiceHealthCheck _ =>
      Except.error (SystemError.InvalidInput
        "Health check messages should be broadcast, not routed")
  | ServiceMessage.ShutdownService service_id => Except.ok service_id

/-- The `match target_service` at the head of `route_message`. -/
def effective_target (message : ServiceMessage) (target_service : Option ServiceId) :
    Except SystemError ServiceId :=
  match target_service with
  | some service => Except.ok service
  | none => determine_target_service message

/-- `EventBus::route_message`.  In this state model the registry holds the
live inbox queue, so a registered target's enqueue succeeds; the source's
closed-receiver send-failure branch (which bumps `routing_errors` and
returns `ServiceCommunication`) has no counterpart here.  The
unknown-target branch returns `ServiceUnavailable` and — as in the source —
touches no counter. -/
def route_message (bus : EventBus) (message : ServiceMessage)
    (target_service : Option ServiceId) : Except SystemError Unit × EventBus :=
  match effective_target message target_service with
  | Except.error e => (Except.error e, bus)
  | Except.ok target =>
    match lookupEntry bus.service_senders target with
    | some inbox =>
        let bus1 := { bus with
          service_senders := insertEntry bus.service_senders target (inbox ++ [message]) }
        let bus2 := { bus1 with
          stats := { bus1.stats with messages_routed := bus1.stats.messages_routed + 1 } }
        (Except.ok (), broadcast_event bus2 (SystemEvent.MessageReceived "event_bus" target))
    | none => (Except.error (SystemError.ServiceUnavailable target), bus)

/-! ### User-input handler (`core/src/handlers/user_input.rs`)

The handler's effect is captured as the ordered list of
`(message, target_override)` pairs it passes to `route_message`; `Utc::now()`
and `Uuid::new_v4()` are supplied as the `now` and `uuid` parameters. -/

/-- The whitespace set of Rust's `char::is_whitespace` (Unicode `White_Space`),
as code points. -/
def rustIsWhitespace (c : Char) : Bool :=
  [9, 10, 11, 12, 13, 32, 0x85, 0xA0, 0x1680,
   0x2000, 0x2001, 0x2002, 0x2003, 0x2004, 0x2005, 0x2006, 0x2007, 0x2008, 0x2009, 0x200A,
   0x2028, 0x2029, 0x202F, 0x205F, 0x3000].contains c.toNat

/-- Rust's `str::trim`. -/
def rustTrim (s : String) : String :=
  String.mk (((s.data.dropWhile rustIsWhitespace).reverse.dropWhile rustIsWhitespace).reverse)

def helpText : String :=
  "Available commands:\n/help - Show this help\n/status - Show system status\n/clear - Clear conversation history"

def warningText : String := "Please provide a non-empty message."

def thinkingText : String := "Thinking..."

/-- `UserInputHandler::get_system_status`. -/
def get_system_status (bus : EventBus) : String :=
  "System Status:\n• Registered services: " ++ toString bus.service_senders.length
    ++ "\n• Messages routed: " ++ toString bus.stats.messages_routed
    ++ "\n• Events broadcast: " ++ toString bus.stats.events_broadcast
    ++ "\n• Routing errors: " ++ toString bus.stats.routing_errors

/-- `UserInputHandler::handle_system_command` (the `match` compares the whole
content string against each command literal). -/
def handle_system_command (bus : EventBus) (command : String) (now : Nat) :
    List (ServiceMessage × Option ServiceId) :=
  let response_content :=
    if command = "/help" then helpText
    else if command = "/status" then get_system_status bus
    else if command = "/clear" then "Conversation history cleared."
    else "Unknown command: " ++ command ++ ". Type /help for available commands."
  [(ServiceMessage.SystemResponse response_content ResponseType.Info now, none)]

/-- `UserInputHandler::handle_user_input`, returning the routed emissions in
order.  The empty-trim branch emits the warning and returns; the `'/'` branch
dispatches a system command; otherwise a Thinking response is followed by an
`LLMRequest` explicitly targeted at the LLM service. -/
def handle_user_input (bus : EventBus) (message : ServiceMessage) (now uuid : Nat) :
    Except SystemError (List (ServiceMessage × Option ServiceId)) :=
  match message with
  | ServiceMessage.UserInput content _timestamp _user_id =>
      if rustTrim content = "" then
        Except.ok [(ServiceMessage.SystemResponse warningText ResponseType.Warning now, none)]
      else if content.data.head? = some '/' then
        Except.ok (handle_system_command bus content now)
      else
        Except.ok
          [(ServiceMessage.SystemResponse thinkingText ResponseType.Thinking now, none),
           (ServiceMessage.LLMRequest content [] "openai" uuid, some LLM_SERVICE_ID)]
  | _ => Except.error (SystemError.InvalidInput "Expected UserInput message")

/-! ### Core dispatch loop (`core/src/main.rs`, `CoreService::start`)

One iteration of the `while let Some(message) = rx.recv()` loop, as the
classification the `match` performs on the received message.  The
`ShutdownService` arm logs and then unconditionally runs `break`. -/

inductive DispatchAction where
  | handleUserInput
  | handleLLMResponse
  | handleHealthCheck (service_id : String)
  | breakLoop
  | logAndIgnore
deriving DecidableEq, Repr

def core_dispatch (message : ServiceMessage) : DispatchAction :=
  match message with
  | ServiceMessage.UserInput _ _ _ => DispatchAction.handleUserInput
  | ServiceMessage.LLMResponse _ _ _ => DispatchAction.handleLLMResponse
  | ServiceMessage.ServiceHealthCheck service_id => DispatchAction.handleHealthCheck service_id
  | ServiceMessage.ShutdownService _ => DispatchAction.breakLoop
  | _ => DispatchAction.logAndIgnore

/-! ### Service supervisor (`core/src/service_manager.rs`)

Durations are modelled as exact rationals (seconds); the `f64` arithmetic of
`calculate_restart_delay` is carried out over `ℚ` (`powi`'s rounding aside,
the computation is `min (base · multiplier ^ count) max`), and the Rust cast
`restart_count as i32` is kept as a wrapping conversion. -/

inductive ServiceStatus where
  | Starting
  | Running
  | Stopping
  | Stopped
  | Failed (error : String)
  | Restarting
deriving DecidableEq, Repr

structure RestartPolicy where
  max_restart_attempts : Nat
  restart_delay : ℚ
  backoff_multiplier : ℚ
  max_restart_delay : ℚ
deriving DecidableEq, Repr

/-- `RestartPolicy::default()`: 3 attempts, 1 s base delay, multiplier 2.0,
30 s cap. -/
def RestartPolicy.default : RestartPolicy :=
  { max_restart_attempts := 3, restart_delay := 1, backoff_multiplier := 2,
    max_restart_delay := 30 }

/-- Per-service record (`ServiceInfo` without the task handle and the
real-time `last_health_check` instant). -/
structure ServiceInfo where
  restart_count : Nat
  status : ServiceStatus
deriving DecidableEq, Repr

structure ServiceManager where
  services : List (ServiceId × ServiceInfo)
  event_bus : EventBus
  restart_policy : RestartPolicy
deriving DecidableEq, Repr

/-- `ServiceManager::new`. -/
def ServiceManager.new (bus : EventBus) : ServiceManager :=
  { services := [], event_bus := bus, restart_policy := RestartPolicy.default }

/-- The Rust cast `restart_count as i32` (wrapping two's-complement). -/
def wrapToI32 (n : Nat) : Int :=
  (((n + 2 ^ 31) % 2 ^ 32 : Nat) : Int) - 2 ^ 31

/-- `ServiceManager::calculate_restart_delay`:
`min(base_delay · multiplier ^ (restart_count as i32), max_delay)`. -/
def calculate_restart_delay (m : ServiceManager) (restart_count : Nat) : ℚ :=
  min (m.restart_policy.restart_delay
        * m.restart_policy.backoff_multiplier ^ wrapToI32 restart_count)
      m.restart_policy.max_restart_delay

/-- `ServiceManager::should_restart_service` (defined in the source but never
called by `restart_service`). -/
def should_restart_service (m : ServiceManager) (restart_count : Nat) : Bool :=
  decide (restart_count < m.restart_policy.max_restart_attempts)

/-- `ServiceManager::start_service`: registers with the bus and inserts a
fresh record (`restart_count = 0`, status `Starting`); the spawned task
itself is outside the state model. -/
def start_service (m : ServiceManager) (service_id : ServiceId) :
    Except SystemError Unit × ServiceManager :=
  match register_service m.event_bus service_id with
  | (Except.error e, bus1) => (Except.error e, { m with event_bus := bus1 })
  | (Except.ok _, bus1) =>
      (Except.ok (),
       { m with event_bus := bus1,
                services := insertEntry m.services service_id
                  { restart_count := 0, status := ServiceStatus.Starting } })

/-- `ServiceManager::stop_service`: removes the record (aborting and awaiting
the task), then unregisters from the bus. -/
def stop_service (m : ServiceManager) (service_id : ServiceId) :
    Except SystemError Unit × ServiceManager :=
  let m1 := { m with services := removeEntry m.services service_id }
  match unregister_service m1.event_bus service_id with
  | (r, bus1) => (r, { m1 with event_bus := bus1 })

/-- `ServiceManager::restart_service`.  It bumps `restart_count` and sets
`Restarting` if the record exists, stops the service (which removes the
record), reads the — now gone — record's count back as 0, computes the
backoff delay (returned here as the second component, the amount slept), and
then returns `Ok` without respawning anything: the source logs
"Service restart not fully implemented" at that point, stores no factory,
never consults `should_restart_service` and never sets `Failed`. -/
def restart_service (m : ServiceManager) (service_id : ServiceId) :
    Except SystemError Unit × ServiceManager × ℚ :=
  let bump := fun info : ServiceInfo =>
    { info with status := ServiceStatus.Restarting, restart_count := info.restart_count + 1 }
  let m1 := { m with services := updateEntry m.services service_id bump }
  match stop_service m1 service_id with
  | (Except.error e, m2) => (Except.error e, m2, 0)
  | (Except.ok _, m2) =>
      let restart_count := ((lookupEntry m2.services service_id).map
        ServiceInfo.restart_count).getD 0
      (Except.ok (), m2, calculate_restart_delay m2 restart_count)

/-! ### Concrete scenarios used by the counterexamples and witnesses -/

def uiMsg : ServiceMessage := ServiceMessage.SystemResponse "hi" ResponseType.Info 0

/-- Register "a", route a message into its inbox, then register "a" again. -/
def registerTwiceScenario : Except SystemError Unit × EventBus :=
  let bus1 := (register_service EventBus.new "a").2
  let bus1r := (route_message bus1 uiMsg (some "a")).2
  register_service bus1r "a"

/-- A policy whose multiplier is below one (base 2 s, multiplier 0.5,
cap 60 s). -/
def halvingManager : ServiceManager :=
  { services := [], event_bus := EventBus.new,
    restart_policy := { max_restart_attempts := 3, restart_delay := 2,
                        backoff_multiplier := 1 / 2, max_restart_delay := 60 } }

def defaultManager : ServiceManager := ServiceManager.new EventBus.new

/-- Start the core service, then call `restart_service` on it. -/
def restartScenario : Except SystemError Unit × ServiceManager × ℚ :=
  restart_service (start_service defaultManager CORE_SERVICE_ID).2 CORE_SERVICE_ID

/-- A bus with one live event-stream subscriber. -/
def oneSubBus : EventBus := subscribe_to_events EventBus.new

/-! ### Helper lemmas -/

theorem broadcast_event_service_senders (bus : EventBus) (e : SystemEvent) :
    (broadcast_event bus e).service_senders = bus.service_senders := by
  unfold broadcast_event
  split <;> rfl

theorem lookupEntry_insertEntry_self {α : Type} (m : List (ServiceId × α)) (k : ServiceId)
    (v : α) : lookupEntry (insertEntry m k v) k = some v := by
  induction m with
  | nil => simp [insertEntry, lookupEntry]
  | cons hd tl ih =>
      obtain ⟨k2, v2⟩ := hd
      by_cases h : k2 = k
      · simp [insertEntry, lookupEntry, h]
      · simp [insertEntry, lookupEntry, h, ih]

theorem wrapToI32_eq_ofNat (n : Nat) (h : n < 2 ^ 31) : wrapToI32 n = (n : Int) := by
  have h2 : n + 2 ^ 31 < 2 ^ 32 := by omega
  unfold wrapToI32
  rw [Nat.mod_eq_of_lt h2]
  push_cast
  ring

/-! ### Claim C1 — registration uniqueness -/

/-- Claim C1, counterexample: after registering "a" and routing a message
into its inbox, a second `register_service "a"` returns `Ok` (not an error —
`SystemError` has no `AlreadyRegistered` variant) and replaces the first
registration's producer: the stored inbox is reset to the fresh empty one,
though it held `uiMsg` just before. -/
theorem register_service_overwrites_cex :
    registerTwiceScenario.1 = Except.ok ()
      ∧ lookupEntry registerTwiceScenario.2.service_senders "a" = some []
      ∧ lookupEntry ((route_message (register_service EventBus.new "a").2 uiMsg
          (some "a")).2.service_senders) "a" = some [uiMsg] :=
  ⟨rfl, rfl, rfl⟩

/-- Claim C1 (amended): `register_service` never fails; registering an id —
already present or not — succeeds and stores a fresh empty inbox for it
(last registration wins). -/
theorem register_service_always_ok (bus : EventBus) (id : ServiceId) :
    (register_service bus id).1 = Except.ok ()
      ∧ lookupEntry (register_service bus id).2.service_senders id = some [] := by
  refine ⟨rfl, ?_⟩
  show lookupEntry (broadcast_event
      { bus with service_senders := insertEntry bus.service_senders id [] }
      (SystemEvent.ServiceStarted id)).service_senders id = some []
  rw [broadcast_event_service_senders]
  exact lookupEntry_insertEntry_self bus.service_senders id []

/-! ### Claim C2 — unknown target -/

/-- Claim C2, counterexample: routing an `LLMRequest` on a bus with no
registered service returns `ServiceUnavailable "llm"` but does not increment
`routing_errors` (the counter stays 0, not 1: the source's unknown-target
branch touches no counter). -/
theorem route_unknown_target_counter_cex :
    (route_message EventBus.new (ServiceMessage.LLMRequest "p" [] "openai" 0) none).1
        = Except.error (SystemError.ServiceUnavailable "llm")
      ∧ (route_message EventBus.new (ServiceMessage.LLMRequest "p" [] "openai" 0)
          none).2.stats.routing_errors
          ≠ EventBus.new.stats.routing_errors + 1 :=
  ⟨rfl, by decide⟩

/-- Claim C2 (amended): for every message and every effective target
(derived or overridden) that is not registered, `route_message` returns
`ServiceUnavailable` carrying that target and leaves the whole bus state —
in particular `routing_errors` and `messages_routed` — unchanged. -/
theorem route_unknown_target_unavailable (bus : EventBus) (message : ServiceMessage)
    (target_service : Option ServiceId) (t : ServiceId)
    (ht : effective_target message target_service = Except.ok t)
    (hmiss : lookupEntry bus.service_senders t = none) :
    route_message bus message target_service
      = (Except.error (SystemError.ServiceUnavailable t), bus) := by
  unfold route_message
  simp only [ht, hmiss]

/-- Witness for `route_unknown_target_unavailable` at the empty bus and a
derived target. -/
theorem route_unknown_target_unavailable_witness :
    effective_target (ServiceMessage.LLMRequest "p" [] "openai" 0) none = Except.ok "llm"
      ∧ route_message EventBus.new (ServiceMessage.LLMRequest "p" [] "openai" 0) none
        = (Except.error (SystemError.ServiceUnavailable "llm"), EventBus.new) :=
  ⟨rfl, route_unknown_target_unavailable EventBus.new
    (ServiceMessage.LLMRequest "p" [] "openai" 0) none "llm" rfl rfl⟩

/-! ### Claim C3 — content-based routing table -/

/-- Claim C3: with no target override, the derived target is exactly the
routing table's entry for each variant: `LLMRequest ↦ llm`;
`StoreConversation`, `LoadUserProfile ↦ data`; `CalendarSync`,
`EmailProcess ↦ external`; `SystemResponse`, `UserProfileResponse ↦ ui`;
`UserInput`, `LLMResponse`, `ServiceHealthResponse ↦ core`;
`ShutdownService ↦ its embedded service id`. -/
theorem content_based_routing_table :
    (∀ prompt context provider request_id, determine_target_service
        (ServiceMessage.LLMRequest prompt context provider request_id)
        = Except.ok LLM_SERVICE_ID)
      ∧ (∀ user_id messages, determine_target_service
          (ServiceMessage.StoreConversation user_id messages) = Except.ok DATA_SERVICE_ID)
      ∧ (∀ user_id, determine_target_service
          (ServiceMessage.LoadUserProfile user_id) = Except.ok DATA_SERVICE_ID)
      ∧ (∀ action, determine_target_service
          (ServiceMessage.CalendarSync action) = Except.ok EXTERNAL_SERVICE_ID)
      ∧ (∀ emails, determine_target_service
          (ServiceMessage.EmailProcess emails) = Except.ok EXTERNAL_SERVICE_ID)
      ∧ (∀ content message_type timestamp, determine_target_service
          (ServiceMessage.SystemResponse content message_type timestamp)
          = Except.ok UI_SERVICE_ID)
      ∧ (∀ profile, determine_target_service
          (ServiceMessage.UserProfileResponse profile) = Except.ok UI_SERVICE_ID)
      ∧ (∀ content timestamp user_id, determine_target_service
          (ServiceMessage.UserInput content timestamp user_id) = Except.ok CORE_SERVICE_ID)
      ∧ (∀ content usage request_id, determine_target_service
          (ServiceMessage.LLMResponse content usage request_id) = Except.ok CORE_SERVICE_ID)
      ∧ (∀ service_id status, determine_target_service
          (ServiceMessage.ServiceHealthResponse service_id status) = Except.ok CORE_SERVICE_ID)
      ∧ (∀ service_id, determine_target_service
          (ServiceMessage.ShutdownService service_id) = Except.ok service_id) := by
  refine ⟨?_, ?_, ?_, ?_, ?_, ?_, ?_, ?_, ?_, ?_, ?_⟩ <;> intros <;> rfl

/-! ### Claim C4 — health-check rejection -/

/-- Claim C4: routing a `ServiceHealthCheck` with no override returns
`InvalidInput` and leaves the bus state (every inbox, `messages_routed`)
unchanged: the target derivation fails before any lookup or enqueue. -/
theorem health_check_route_rejected (bus : EventBus) (sid : String) :
    route_message bus (ServiceMessage.ServiceHealthCheck sid) none
      = (Except.error (SystemError.InvalidInput
          "Health check messages should be broadcast, not routed"), bus) := rfl

/-! ### Claim C5 — restart bound and respawn -/

/-- Claim C5, divergence exhibitor (code bug acknowledged by the source's own
"restart not fully implemented" warning and by spec §9): after starting the
core service, `restart_service` returns `Ok` but leaves the service neither
respawned nor `Failed` — its record is gone from the supervisor and its
registration gone from the bus, no factory having been stored to re-spawn
it, and the `restart_count ≥ max_attempts` bound never being consulted. -/
theorem restart_service_does_not_respawn :
    restartScenario.1 = Except.ok ()
      ∧ lookupEntry restartScenario.2.1.services CORE_SERVICE_ID = none
      ∧ lookupEntry restartScenario.2.1.event_bus.service_senders CORE_SERVICE_ID = none :=
  ⟨rfl, rfl, rfl⟩

/-! ### Claim C6 — restart backoff schedule -/

/-- Claim C6, counterexample: the backoff is not monotone nondecreasing for
every restart policy — with base 2 s, multiplier 0.5 and cap 60 s the delay
for attempt 1 (one second) is below the delay for attempt 0 (two
seconds). -/
theorem backoff_not_monotone_cex :
    calculate_restart_delay halvingManager 1 < calculate_restart_delay halvingManager 0 := by
  have h1 : wrapToI32 1 = 1 := by norm_num [wrapToI32]
  have h0 : wrapToI32 0 = 0 := by norm_num [wrapToI32]
  unfold calculate_restart_delay
  rw [h1, h0, zpow_one, zpow_zero]
  norm_num [halvingManager, min_def]

/-- Claim C6 (amended): for attempt counts below 2³¹ (the source casts the
count to `i32`), the computed delay equals
`min(base_delay · multiplierⁿ, max_delay)`; the schedule is monotone
nondecreasing provided `multiplier ≥ 1` and `base_delay ≥ 0` (both true of
every policy the program builds), and it never exceeds `max_delay`. -/
theorem restart_backoff_amended (m : ServiceManager) (n : Nat)
    (hm : 1 ≤ m.restart_policy.backoff_multiplier)
    (hb : 0 ≤ m.restart_policy.restart_delay)
    (hn : n + 1 < 2 ^ 31) :
    calculate_restart_delay m n
        = min (m.restart_policy.restart_delay * m.restart_policy.backoff_multiplier ^ n)
            m.restart_policy.max_restart_delay
      ∧ calculate_restart_delay m n ≤ calculate_restart_delay m (n + 1)
      ∧ calculate_restart_delay m n ≤ m.restart_policy.max_restart_delay := by
  have hn0 : n < 2 ^ 31 := by omega
  have e0 : calculate_restart_delay m n
      = min (m.restart_policy.restart_delay * m.restart_policy.backoff_multiplier ^ n)
          m.restart_policy.max_restart_delay := by
    unfold calculate_restart_delay
    rw [wrapToI32_eq_ofNat n hn0, zpow_natCast]
  have e1 : calculate_restart_delay m (n + 1)
      = min (m.restart_policy.restart_delay * m.restart_policy.backoff_multiplier ^ (n + 1))
          m.restart_policy.max_restart_delay := by
    unfold calculate_restart_delay
    rw [wrapToI32_eq_ofNat (n + 1) hn, zpow_natCast]
  have hnonneg : (0 : ℚ)
      ≤ m.restart_policy.restart_delay * m.restart_policy.backoff_multiplier ^ n :=
    mul_nonneg hb (pow_nonneg (le_trans zero_le_one hm) n)
  have hmono : m.restart_policy.restart_delay * m.restart_policy.backoff_multiplier ^ n
      ≤ m.restart_policy.restart_delay * m.restart_policy.backoff_multiplier ^ (n + 1) := by
    calc m.restart_policy.restart_delay * m.restart_policy.backoff_multiplier ^ n
        ≤ m.restart_policy.restart_delay * m.restart_policy.backoff_multiplier ^ n
            * m.restart_policy.backoff_multiplier := le_mul_of_one_le_right hnonneg hm
      _ = m.restart_policy.restart_delay * m.restart_policy.backoff_multiplier ^ (n + 1) := by
            rw [pow_succ, mul_assoc]
  refine ⟨e0, ?_, ?_⟩
  · rw [e0, e1]
    exact min_le_min hmono le_rfl
  · rw [e0]
    exact min_le_right _ _

/-- Witness for `restart_backoff_amended` at the default policy
(3 attempts, base 1 s, multiplier 2, cap 30 s) and attempt count 0. -/
theorem restart_backoff_amended_witness :
    calculate_restart_delay defaultManager 0
        = min (defaultManager.restart_policy.restart_delay
              * defaultManager.restart_policy.backoff_multiplier ^ (0 : Nat))
            defaultManager.restart_policy.max_restart_delay
      ∧ calculate_restart_delay defaultManager 0 ≤ calculate_restart_delay defaultManager (0 + 1)
      ∧ calculate_restart_delay defaultManager 0
          ≤ defaultManager.restart_policy.max_restart_delay :=
  restart_backoff_amended defaultManager 0
    (by norm_num [defaultManager, ServiceManager.new, RestartPolicy.default])
    (by norm_num [defaultManager, ServiceManager.new, RestartPolicy.default])
    (by norm_num)

/-! ### Claim C7 — empty-input warning -/

/-- Claim C7: a `UserInput` whose content trims to the empty string makes the
handler emit exactly one message — the Warning `SystemResponse` with content
"Please provide a non-empty message.", routed with no override — and that
message's derived target is the ui service; no `LLMRequest` (or anything
else) is emitted. -/
theorem empty_input_warning (bus : EventBus) (content : String) (ts : Nat)
    (user_id : String) (now uuid : Nat) (h : rustTrim content = "") :
    handle_user_input bus (ServiceMessage.UserInput content ts user_id) now uuid
        = Except.ok [(ServiceMessage.SystemResponse warningText ResponseType.Warning now, none)]
      ∧ determine_target_service (ServiceMessage.SystemResponse warningText
          ResponseType.Warning now) = Except.ok UI_SERVICE_ID := by
  refine ⟨?_, rfl⟩
  simp only [handle_user_input]
  rw [if_pos h]

/-- Witness for `empty_input_warning` on the whitespace-only input "   ". -/
theorem empty_input_warning_witness :
    rustTrim "   " = ""
      ∧ (handle_user_input EventBus.new (ServiceMessage.UserInput "   " 0 "u1") 0 0
            = Except.ok [(ServiceMessage.SystemResponse warningText ResponseType.Warning 0,
                none)]
         ∧ determine_target_service (ServiceMessage.SystemResponse warningText
             ResponseType.Warning 0) = Except.ok UI_SERVICE_ID) :=
  ⟨by decide, empty_input_warning EventBus.new "   " 0 "u1" 0 0 (by decide)⟩

/-! ### Claim C8 — core shutdown condition -/

/-- Claim C8, counterexample: a `ShutdownService` carrying a service id other
than "core" still breaks the dispatch loop — the source's `ShutdownService`
arm logs and breaks unconditionally, with no `service_id == "core"` test. -/
theorem shutdown_any_id_breaks_cex :
    core_dispatch (ServiceMessage.ShutdownService "llm") = DispatchAction.breakLoop := rfl

/-- Claim C8 (amended): the dispatch loop breaks exactly on `ShutdownService`
messages, whatever service id they embed; every other variant is handled or
ignored without terminating the loop. -/
theorem dispatch_breaks_iff_shutdown (message : ServiceMessage) :
    core_dispatch message = DispatchAction.breakLoop
      ↔ ∃ service_id, message = ServiceMessage.ShutdownService service_id := by
  cases message <;> simp [core_dispatch]

/-! ### Claim C9 — broadcast counting -/

/-- Claim C9, counterexample: with no subscriber attached,
`broadcast_event` does not increment `events_broadcast` — the failed send is
logged and dropped without bumping the counter. -/
theorem broadcast_no_subscriber_cex :
    (broadcast_event EventBus.new (SystemEvent.ServiceStarted "a")).stats.events_broadcast
      ≠ EventBus.new.stats.events_broadcast + 1 := by decide

/-- Claim C9 (amended): `broadcast_event` never surfaces an error; it
increments `events_broadcast` by exactly one when at least one subscriber is
attached, and with no subscribers it leaves the bus unchanged (the send
failure is logged and dropped).  It never touches the registry. -/
theorem broadcast_event_count (bus : EventBus) (e : SystemEvent) :
    (bus.subscriber_count = 0 → broadcast_event bus e = bus)
      ∧ (bus.subscriber_count ≠ 0 →
          (broadcast_event bus e).stats.events_broadcast = bus.stats.events_broadcast + 1
            ∧ (broadcast_event bus e).service_senders = bus.service_senders) := by
  unfold broadcast_event
  refine ⟨fun h => by rw [if_pos h], fun h => ?_⟩
  rw [if_neg h]
  exact ⟨rfl, rfl⟩

/-! ### Claim C10 — override bypasses all variant checks -/

/-- Claim C10: with an explicit target override naming a registered service,
`route_message` never consults the routing table (so never returns
`InvalidInput`): it succeeds and appends the message — a
`ServiceHealthCheck` included — to that service's inbox. -/
theorem override_bypasses_checks (bus : EventBus) (message : ServiceMessage)
    (t : ServiceId) (inbox : List ServiceMessage)
    (hreg : lookupEntry bus.service_senders t = some inbox) :
    (route_message bus message (some t)).1 = Except.ok ()
      ∧ lookupEntry (route_message bus message (some t)).2.service_senders t
          = some (inbox ++ [message]) := by
  unfold route_message effective_target
  simp only [hreg, broadcast_event_service_senders]
  exact ⟨True.intro, lookupEntry_insertEntry_self bus.service_senders t _⟩

/-- Witness for `override_bypasses_checks`: a `ServiceHealthCheck` explicitly
targeted at the registered ui service is delivered, not rejected. -/
theorem override_bypasses_checks_witness :
    lookupEntry ((register_service EventBus.new UI_SERVICE_ID).2).service_senders
        UI_SERVICE_ID = some []
      ∧ ((route_message ((register_service EventBus.new UI_SERVICE_ID).2)
            (ServiceMessage.ServiceHealthCheck "core") (some UI_SERVICE_ID)).1 = Except.ok ()
         ∧ lookupEntry (route_message ((register_service EventBus.new UI_SERVICE_ID).2)
             (ServiceMessage.ServiceHealthCheck "core")
             (some UI_SERVICE_ID)).2.service_senders UI_SERVICE_ID
             = some ([] ++ [ServiceMessage.ServiceHealthCheck "core"])) :=
  ⟨rfl, override_bypasses_checks ((register_service EventBus.new UI_SERVICE_ID).2)
    (ServiceMessage.ServiceHealthCheck "core") UI_SERVICE_ID [] rfl⟩
